import Mathlib

/-!
# Verification of docker-volume-tools against its specification

Shallow embedding of the `docker_volume_tools` Python package
(`compose.py`, `backup.py`, `restore.py`) and proofs about it.

Conventions of the embedding:
* YAML mappings are modelled as association lists (`List (String × _)`),
  preserving document order; key lookup is `List.lookup`.
* A YAML value that may be `null` is an `Option`; a key that may be absent
  in a mapping adds another `Option` layer (e.g. the top-level `volumes:`
  section maps a logical name to `Option VolumeConfig`: a missing key gives
  `none` from `lookup`, a present key with null value gives `some none`).
* Python exceptions are `Except Err _`; each `raise` site gets its own
  `Err` constructor.
* External effects (Docker API calls, `docker cp`) are recorded in an
  action trace; their outcomes (volume existence, `docker cp` exit code)
  are parameters of the modelled functions.
* File paths are lists of path components of the absolute path.
-/

namespace DVT

/-- `compose.py` line 8: dataclass `VolumeInfo`. -/
structure VolumeInfo where
  name : String
  service : String
  /-- `'named'` or `'bind'`. -/
  type : String
  source : String
  target : String
  is_external : Bool
  compose_name : String
  deriving DecidableEq, Repr

/-- A top-level `volumes:` entry's configuration mapping, restricted to the
keys `compose.py` reads (`external`, `name`). A missing key is `none`. -/
structure VolumeConfig where
  external : Bool := false
  name : Option String := none
  deriving DecidableEq, Repr

/-- A service's volume mount: short syntax (a string `"source:target[:mode]"`)
or long syntax (a mapping with `source`, `target`, `type` keys, each possibly
absent). -/
inductive ServiceMount where
  | str (s : String)
  | dict (source target type : Option String)
  deriving DecidableEq, Repr

/-- The parsed compose document, restricted to what `parse_compose_file`
reads: the top-level `volumes:` mapping (value `none` models a null entry)
and the `services:` mapping with each service's `volumes:` list. -/
structure ComposeDoc where
  volumes : List (String × Option VolumeConfig) := []
  services : List (String × List ServiceMount) := []
  deriving DecidableEq, Repr

/-- What `os.path.exists` + `open` + `yaml.safe_load` can yield for a path:
the file is missing, its content is not valid YAML, or it parses to a
document (`none` models an empty/null document). -/
inductive FileState where
  | missing
  | invalidYaml
  | doc (d : Option ComposeDoc)
  deriving DecidableEq, Repr

/-- Error taxonomy: one constructor per `raise` site of the sources. -/
inductive Err where
  /-- `compose.py` line 46: `FileNotFoundError`. -/
  | fileNotFound (path : List String)
  /-- `yaml.YAMLError` propagating out of `yaml.safe_load` (`compose.py` line 49). -/
  | yamlError
  /-- `backup.py` line 46: `BackupError("No volumes to backup")`. -/
  | noVolumesToBackup
  /-- `backup.py` line 58: `BackupError("No named volumes to backup")`. -/
  | noNamedVolumes
  /-- `restore.py` line 25: `ValueError("Backup file not found: ...")`. -/
  | backupNotFound
  /-- `restore.py` line 73: `ValueError("Invalid backup format: ...")` — the
  archive cannot be opened as gzip tar, or `metadata.json` is not valid JSON. -/
  | invalidFormat
  /-- `restore.py` line 35: `ValueError("Metadata file not found in backup")`. -/
  | metadataNotFound
  /-- `restore.py` line 41: `ValueError("Could not read metadata file")`. -/
  | couldNotReadMetadata
  /-- `restore.py` line 48: `ValueError("Invalid metadata: missing volumes section")`. -/
  | missingVolumesSection
  /-- `restore.py` line 56: `ValueError("No volume files found in backup")`. -/
  | noVolumeFiles
  /-- `restore.py` line 61: `ValueError("Invalid volume metadata: missing name")`. -/
  | missingVolumeName
  /-- `restore.py` lines 69 and 187: `ValueError("Volume directory not found: {name}")`. -/
  | volumeDirNotFound (name : String)
  /-- `restore.py` line 100: `ValueError("Volume {name} already exists. Use --force to overwrite")`. -/
  | volumeExists (name : String)
  /-- `restore.py` line 204: `ValueError("Failed to copy volume data: {code}")`. -/
  | copyFailed (code : Int)
  /-- `restore.py` line 215: `ValueError("Failed to restore volume {name}: {e}")`,
  wrapping the inner exception. -/
  | restoreFailed (name : String) (inner : Err)
  /-- `restore.py` line 242: `ValueError("Volumes not found in backup: ...")`;
  the Python `set` of missing names is modelled as the deduplicated list of
  selected names absent from the filtered set, in first-occurrence order. -/
  | volumesNotFoundInBackup (missing : List String)
  deriving DecidableEq, Repr

/-! ## Python string primitives

Structurally recursive implementations of the Python string operations the
sources use (`startswith`, `split` on a one-character separator, `replace`
of a one-character pattern, ASCII `lower`), so that every definition
evaluates inside the kernel. -/

/-- `bs` begins with `as`. -/
def charPrefix : List Char → List Char → Bool
  | [], _ => true
  | _ :: _, [] => false
  | a :: as, b :: bs => a = b && charPrefix as bs

/-- Python `s.startswith(pre)`. -/
def pyStartsWith (s pre : String) : Bool :=
  charPrefix pre.data s.data

/-- Split on every occurrence of `sep`; `[] ↦ [[]]` like Python's
`"".split(sep) == ['']`. -/
def splitChar (sep : Char) : List Char → List (List Char)
  | [] => [[]]
  | c :: cs =>
    match splitChar sep cs with
    | h :: t => if c = sep then [] :: h :: t else (c :: h) :: t
    | [] => [[c]]

/-- Python `s.split(sep)` for a one-character separator. -/
def pySplit (s : String) (sep : Char) : List String :=
  (splitChar sep s.data).map String.mk

/-- Replace every occurrence of the character `old` by the string `new`. -/
def replaceChar (old : Char) (new : List Char) : List Char → List Char
  | [] => []
  | c :: cs => (if c = old then new else [c]) ++ replaceChar old new cs

/-- Python `s.replace(old, new)` for a one-character pattern. -/
def pyReplaceChar (s : String) (old : Char) (new : String) : String :=
  ⟨replaceChar old new.data s.data⟩

/-- ASCII lowering of one character (the volume names involved are ASCII;
Python's Unicode-aware `str.lower` agrees on them). -/
def lowerChar (c : Char) : Char :=
  if c.toNat ≥ 65 ∧ c.toNat ≤ 90 then Char.ofNat (c.toNat + 32) else c

/-- Python `s.lower()`. -/
def pyLower (s : String) : String :=
  ⟨s.data.map lowerChar⟩

/-! ## Compose Volume Extractor (`compose.py`) -/

/-- `compose.py` line 19 `get_project_name`:
`os.path.basename(os.path.dirname(os.path.abspath(compose_path)))`, on a
path given as the list of components of the absolute path. -/
def get_project_name (compose_path : List String) : String :=
  (compose_path.dropLast.getLast?).getD ""

/-- `named_volumes[source] or {}` / `named_volumes.get(source) or {}`
(`compose.py` lines 75 and 102): the configuration of a top-level volume
entry, defaulting to the empty configuration when the entry is absent or
null. -/
def volCfg (named_volumes : List (String × Option VolumeConfig)) (source : String) :
    VolumeConfig :=
  ((named_volumes.lookup source).getD none).getD {}

/-- Body of the mount loop, `compose.py` lines 65-124: turn one service
mount into a `VolumeInfo` (or nothing, when the short form has fewer than
two `:`-separated parts or the long form has a `type` other than
`volume`/`bind`). -/
def processMount (named_volumes : List (String × Option VolumeConfig))
    (project_name service_name : String) : ServiceMount → Option VolumeInfo
  | .str s =>
    match pySplit s ':' with
    | source :: target :: _ =>
      match named_volumes.lookup source with
      | some _ =>
        let cfg := volCfg named_volumes source
        some { name := source, service := service_name, type := "named",
               source := source, target := target,
               is_external := cfg.external,
               compose_name := cfg.name.getD (project_name ++ "_" ++ source) }
      | none =>
        some { name := source, service := service_name, type := "bind",
               source := source, target := target,
               is_external := false, compose_name := source }
    | _ => none
  | .dict src tgt ty =>
    let source := src.getD ""
    let target := tgt.getD ""
    let volume_type := ty.getD "volume"
    if volume_type = "volume" then
      let cfg := volCfg named_volumes source
      some { name := source, service := service_name, type := "named",
             source := source, target := target,
             is_external := cfg.external,
             compose_name := cfg.name.getD (project_name ++ "_" ++ source) }
    else if volume_type = "bind" then
      some { name := source, service := service_name, type := "bind",
             source := source, target := target,
             is_external := false, compose_name := source }
    else none

/-- `compose.py` line 32 `parse_compose_file`. -/
def parse_compose_file (compose_path : List String) (fs : FileState) :
    Except Err (List VolumeInfo) :=
  match fs with
  | .missing => .error (.fileNotFound compose_path)
  | .invalidYaml => .error .yamlError
  | .doc none => .ok []
  | .doc (some d) =>
    let project_name := get_project_name compose_path
    .ok (d.services.flatMap fun sv =>
      sv.2.filterMap (processMount d.volumes project_name sv.1))

/-! ## Backup metadata and archive model -/

/-- One entry of `metadata["volumes"]` as JSON: each field is optional at
the JSON level (`validate_backup` checks `"name" in volume`). `archive_path`
is never written by `create_backup` but is read by `restore_volume`
(`restore.py` line 91). -/
structure VolJson where
  name : Option String := none
  service : Option String := none
  target : Option String := none
  is_external : Option Bool := none
  archive_path : Option String := none
  deriving DecidableEq, Repr

/-- The parsed `metadata.json` document: `volumes` is `none` when the key
is absent (`restore.py` line 47 checks `"volumes" not in metadata`). -/
structure MetaJson where
  timestamp : String := ""
  project : String := ""
  compose_file : String := ""
  volumes : Option (List VolJson) := none
  deriving DecidableEq, Repr

/-- Content of an archive member holding `metadata.json`: either text that
fails `json.loads` or a parsed document. -/
inductive MetaContent where
  | badJson
  | json (m : MetaJson)
  deriving DecidableEq, Repr

/-- A backup artifact: whether the stream is gzip-compressed, the tar member
names in order, and the JSON-parse outcome of the members that are read as
`metadata.json` (an association list; a member absent from it models
`tar.extractfile` returning `None`). -/
structure Archive where
  gz : Bool
  members : List String
  contents : List (String × MetaContent) := []
  deriving DecidableEq, Repr

/-! ## Archive Builder (`backup.py`, local destination) -/

/-- `backup.py` lines 42-43: `if volumes_to_backup: volumes = [v for v in
volumes if v.name in volumes_to_backup]`. Python truthiness: both `None` and
an empty list skip the filtering. -/
def filterSubset (volumes : List VolumeInfo) (volumes_to_backup : Option (List String)) :
    List VolumeInfo :=
  match volumes_to_backup with
  | some (x :: xs) => volumes.filter (fun v => v.name ∈ x :: xs)
  | _ => volumes

/-- `backup.py` lines 49-56: keep only `type == 'named'` entries,
deduplicated by `name`, first occurrence kept (insertion-ordered dict). -/
def dedupNamedGo (seen : List String) : List VolumeInfo → List VolumeInfo
  | [] => []
  | v :: rest =>
    if v.type = "named" ∧ v.name ∉ seen then
      v :: dedupNamedGo (v.name :: seen) rest
    else dedupNamedGo seen rest

/-- The filtered, deduplicated named-volume set of `backup.py` lines 49-56. -/
def dedupNamed (volumes : List VolumeInfo) : List VolumeInfo :=
  dedupNamedGo [] volumes

/-- `backup.py` line 70: `f"{project_name}_volumes_{timestamp}"`. -/
def backupName (project timestamp : String) : String :=
  project ++ "_volumes_" ++ timestamp

/-- `'tar.gz' if compress else 'tar'` with the leading dot. -/
def tarExt (compress : Bool) : String :=
  if compress then ".tar.gz" else ".tar"

/-- `backup.py` lines 73-86: the metadata prepared for the archive.
`project` is `os.path.splitext(os.path.basename(compose_file))[0]` and
`compose_file` its base name; both are taken as parameters here. -/
def buildMetadata (timestamp project compose_base : String)
    (named_volumes : List VolumeInfo) : MetaJson :=
  { timestamp := timestamp, project := project, compose_file := compose_base,
    volumes := some (named_volumes.map fun v =>
      { name := some v.compose_name, service := some v.service,
        target := some v.target, is_external := some v.is_external }) }

/-- `backup.py` lines 16-58 + 212-251, the local-destination branch of
`create_backup`, starting from the already-parsed volume list (line 36).
The impure inputs — the timestamp (line 68) and the compose file's base
name without extension (line 69) — are parameters.

The produced artifact (lines 217-246): per-volume tars
`{backup_dir}/{v.name}.tar[.gz]` and `{backup_dir}/metadata.json` are
written into a directory named `backup_name`, and the final archive is
`tar {cz|c}f final -C output_dir backup_name`, so every member name is
`backup_name` or `backup_name ++ "/" ++ …` (member order inside the
directory is the file system's; the chosen order here is a modelling
choice, the member *set* is what the code determines). -/
def create_backup_local (volumes : List VolumeInfo)
    (volumes_to_backup : Option (List String)) (compress : Bool)
    (timestamp project compose_base : String) :
    Except Err (MetaJson × Archive) :=
  let vols := filterSubset volumes volumes_to_backup
  if vols = [] then .error .noVolumesToBackup
  else
    let named_volumes := dedupNamed vols
    if named_volumes = [] then .error .noNamedVolumes
    else
      let bname := backupName project timestamp
      let metadata := buildMetadata timestamp project compose_base named_volumes
      let members := bname :: (bname ++ "/metadata.json") ::
        named_volumes.map (fun v => bname ++ "/" ++ v.name ++ tarExt compress)
      .ok (metadata,
        { gz := compress, members := members,
          contents := [(bname ++ "/metadata.json", .json metadata)] })

/-! ## Archive Validator/Reader (`restore.py` `validate_backup`) -/

/-- `restore.py` lines 32-33: a member is the root metadata file when its
name is `metadata.json` or `./metadata.json`. -/
def isRootMetadata (n : String) : Bool :=
  n = "metadata.json" || n = "./metadata.json"

/-- `restore.py` lines 53-54: some member lies under a top-level `volumes/`
directory (leading `./` accepted). -/
def hasVolumeFiles (members : List String) : Bool :=
  members.any (fun n => pyStartsWith n "volumes/" || pyStartsWith n "./volumes/")

/-- `restore.py` lines 63-67: some member lies under `volumes/{name}/`
(leading `./` accepted). -/
def volumePrefixPresent (members : List String) (name : String) : Bool :=
  members.any (fun s => pyStartsWith s ("volumes/" ++ name ++ "/")
    || pyStartsWith s ("./volumes/" ++ name ++ "/"))

/-- `restore.py` lines 58-69: the per-volume loop of `validate_backup`. -/
def checkVolumes (members : List String) : List VolJson → Except Err Unit
  | [] => .ok ()
  | v :: rest =>
    match v.name with
    | none => .error .missingVolumeName
    | some n =>
      if volumePrefixPresent members n then checkVolumes members rest
      else .error (.volumeDirNotFound n)

/-- `restore.py` lines 11-73 `validate_backup`, after the path-existence
check of line 24 (the artifact itself is the input here). Opening with mode
`'r:gz'` (line 29) fails with `tarfile.ReadError` on a stream that is not
gzip-compressed, caught at line 72 as "Invalid backup format". -/
def validate_backup (a : Archive) : Except Err MetaJson :=
  if ¬ a.gz then .error .invalidFormat
  else
    match a.members.find? isRootMetadata with
    | none => .error .metadataNotFound
    | some mname =>
      match a.contents.lookup mname with
      | none => .error .couldNotReadMetadata
      | some .badJson => .error .invalidFormat
      | some (.json metadata) =>
        match metadata.volumes with
        | none => .error .missingVolumesSection
        | some vs =>
          if ¬ hasVolumeFiles a.members then .error .noVolumeFiles
          else (checkVolumes a.members vs).map fun _ => metadata

/-! ## Volume Restorer (`restore.py` `restore_volume`, `restore_backup`) -/

/-- Docker-side effects performed by the restorer, in order. -/
inductive Action where
  | removeVolume (name : String)
  | createVolume (name : String)
  | runContainer
  | dockerCp
  | stopContainer
  | removeContainer
  deriving DecidableEq, Repr

instance {ε α : Type} [DecidableEq ε] [DecidableEq α] : DecidableEq (Except ε α) :=
  fun a b =>
    match a, b with
    | .ok x, .ok y =>
      if h : x = y then .isTrue (by rw [h]) else .isFalse (by simp [h])
    | .error x, .error y =>
      if h : x = y then .isTrue (by rw [h]) else .isFalse (by simp [h])
    | .ok _, .error _ => .isFalse (by simp)
    | .error _, .ok _ => .isFalse (by simp)

/-- Result of one `restore_volume` call: the runtime actions in order, the
number of archive members extracted into the staging directory, and the
outcome. -/
structure RestoreOutcome where
  trace : List Action
  extracted : Nat
  result : Except Err Unit
  deriving DecidableEq, Repr

/-- `volume_name.replace('-', '_')`. -/
def dashToUnderscore (s : String) : String :=
  pyReplaceChar s '-' "_"

/-- `volume_name.replace('-', '').replace('_', '')`. -/
def stripSpecial (s : String) : String :=
  pyReplaceChar (pyReplaceChar s '-' "") '_' ""

/-- `restore.py` lines 137-149: the `possible_prefixes` list, in order. -/
def possiblePrefixes (volume_name : String) : List String :=
  [ "volumes/" ++ volume_name ++ "/",
    "./volumes/" ++ volume_name ++ "/",
    "volumes/" ++ dashToUnderscore volume_name ++ "/",
    "./volumes/" ++ dashToUnderscore volume_name ++ "/",
    "volumes/" ++ pyLower volume_name ++ "/",
    "./volumes/" ++ pyLower volume_name ++ "/",
    "volumes/" ++ stripSpecial volume_name ++ "/",
    "./volumes/" ++ stripSpecial volume_name ++ "/" ]

/-- `restore.py` lines 152-159, transcribed exactly:
```
for member in tar.getmembers():
    for prefix in possible_prefixes:
        if member.name.startswith(prefix):
            volume_prefix = prefix
            break
    if volume_prefix:
        break
```
`volume_prefix` is a Python string, so the `if volume_prefix: break` test is
string truthiness, i.e. `volume_prefix ≠ ""`. Since `volume_prefix` enters
the loop as the non-empty `"volumes/{archive_path}/"`, this test is true
already after the first member, whether or not that member matched. -/
def variantLoop (prefixes : List String) (vp : String) : List String → String
  | [] => vp
  | m :: rest =>
    let vp2 := match prefixes.find? (fun p => pyStartsWith m p) with
      | some p => p
      | none => vp
    if vp2 = "" then variantLoop prefixes vp2 rest else vp2

/-- `restore.py` lines 164-172: collect `parts[1]` of every member under
`volumes/` or `./volumes/` whose name has at least three `/`-separated
parts. The Python `set` is modelled as the deduplicated list in
first-occurrence order. -/
def volumeDirs (members : List String) : List String :=
  (members.filterMap fun m =>
    if pyStartsWith m "volumes/" || pyStartsWith m "./volumes/" then
      match pySplit m '/' with
      | _ :: p1 :: _ :: _ => some p1
      | _ => none
    else none).dedup

/-- `restore.py` lines 177-184: find a "similar" volume directory. -/
def similarMatch (volume_name : String) (dirs : List String) : Option String :=
  dirs.find? fun d =>
    pyLower d = pyLower volume_name
    || dashToUnderscore d = dashToUnderscore volume_name
    || stripSpecial d = stripSpecial volume_name

/-- `restore.py` lines 127-187: determine the member-name prefix whose
entries will be extracted for this volume, or fail. -/
def resolvePrefix (members : List String) (volume_name archive_path : String) :
    Except Err String :=
  let volume_prefix := "volumes/" ++ archive_path ++ "/"
  let volume_prefix_with_dot := "./volumes/" ++ archive_path ++ "/"
  let volume_members := members.filter fun m =>
    pyStartsWith m volume_prefix || pyStartsWith m volume_prefix_with_dot
  if volume_members.isEmpty then
    let vp := variantLoop (possiblePrefixes volume_name) volume_prefix members
    if vp = "" then
      match similarMatch volume_name (volumeDirs members) with
      | some d => .ok ("volumes/" ++ d ++ "/")
      | none => .error (.volumeDirNotFound volume_name)
    else .ok vp
  else .ok volume_prefix

/-- `restore.py` lines 121-204, the body of the inner `try`: open the
archive as gzip tar, resolve the volume's prefix, extract the matching
members into the staging directory, then run `docker cp` (whose exit code
is the parameter `cp_result`). On error, reports the actions done so far in
the failure payload. -/
def restoreBody (a : Archive) (volume_name archive_path : String)
    (cp_result : Int) : Except (Err × Nat × List Action) (Nat × List Action) :=
  if ¬ a.gz then .error (.invalidFormat, 0, [])
  else
    match resolvePrefix a.members volume_name archive_path with
    | .error e => .error (e, 0, [])
    | .ok volume_prefix =>
      let extracted := (a.members.filter (fun m => pyStartsWith m volume_prefix)).length
      if cp_result ≠ 0 then .error (.copyFailed cp_result, extracted, [.dockerCp])
      else .ok (extracted, [.dockerCp])

/-- `restore.py` lines 75-217 `restore_volume`. Parameters standing for the
runtime: `volExists` is whether `client.volumes.get(volume_name)` succeeds
(line 98), `cp_result` the exit status of the `docker cp` shell-out
(line 200). `archive_path_field` is `volume_metadata.get("archive_path")`
(line 91). The `finally` of line 206 stops and removes the helper
container on every path; the `except` of line 211 removes the just-created
volume and wraps the error. -/
def restore_volume (volExists force : Bool) (a : Archive) (volume_name : String)
    (archive_path_field : Option String) (cp_result : Int) : RestoreOutcome :=
  let archive_path := archive_path_field.getD volume_name
  if volExists ∧ ¬ force then
    { trace := [], extracted := 0, result := .error (.volumeExists volume_name) }
  else
    let pre := if volExists then [Action.removeVolume volume_name] else []
    let head := pre ++ [Action.createVolume volume_name, Action.runContainer]
    match restoreBody a volume_name archive_path cp_result with
    | .ok (n, acts) =>
      { trace := head ++ acts ++ [Action.stopContainer, Action.removeContainer],
        extracted := n, result := .ok () }
    | .error (e, n, acts) =>
      { trace := head ++ acts ++
          [Action.stopContainer, Action.removeContainer, Action.removeVolume volume_name],
        extracted := n, result := .error (.restoreFailed volume_name e) }

/-- `v["name"]` for a metadata volume entry; `restore_backup` only reaches
this after `validate_backup` has guaranteed the `name` key present. -/
def jname (v : VolJson) : String := v.name.getD ""

/-- `restore.py` lines 234-242: select the volumes to restore. Python
truthiness again: `None` and the empty list both select everything. -/
def restore_selection (metadata_volumes : List VolJson)
    (volumes : Option (List String)) : Except Err (List VolJson) :=
  match volumes with
  | some (s :: ss) =>
    let sel := s :: ss
    let volumes_to_restore := metadata_volumes.filter fun v => jname v ∈ sel
    if volumes_to_restore.length ≠ sel.length then
      .error (.volumesNotFoundInBackup
        ((sel.filter fun x => x ∉ volumes_to_restore.map jname).dedup))
    else .ok volumes_to_restore
  | _ => .ok metadata_volumes

/-- `restore.py` lines 244-246: restore each selected volume in order; an
exception from `restore_volume` propagates, ending the loop. -/
def runRestores (a : Archive) (force : Bool) (volExists : String → Bool)
    (cp : String → Int) : List VolJson → List Action × Except Err Unit
  | [] => ([], .ok ())
  | v :: rest =>
    let r := restore_volume (volExists (jname v)) force a (jname v)
      v.archive_path (cp (jname v))
    match r.result with
    | .error e => (r.trace, .error e)
    | .ok _ =>
      let tail := runRestores a force volExists cp rest
      (r.trace ++ tail.1, tail.2)

/-- `restore.py` lines 219-246 `restore_backup`: validate, select, then
restore each selected volume. Returns the runtime action trace and the
outcome. -/
def restore_backup (a : Archive) (volumes : Option (List String)) (force : Bool)
    (volExists : String → Bool) (cp : String → Int) :
    List Action × Except Err Unit :=
  match validate_backup a with
  | .error e => ([], .error e)
  | .ok metadata =>
    match restore_selection (metadata.volumes.getD []) volumes with
    | .error e => ([], .error e)
    | .ok volumes_to_restore => runRestores a force volExists cp volumes_to_restore

/-! ## Concrete instances used in the theorems -/

/-- Path of the example compose file: project directory base name `shop`. -/
def exPath : List String := ["home", "user", "shop", "docker-compose.yml"]

/-- The spec's example compose document: `database` mounts named volume
`postgres_data` (declared with an empty configuration), `cache` mounts
named volume `redis_data` (declared null, long syntax), `extra` mounts
`extra_data` which carries an explicit `name: custom_pg` override. -/
def exDoc : ComposeDoc :=
  { volumes := [("postgres_data", some {}), ("redis_data", none),
                ("extra_data", some { name := some "custom_pg" })],
    services := [("database", [.str "postgres_data:/var/lib/postgresql/data",
                               .str "./init-scripts:/docker-entrypoint-initdb.d"]),
                 ("cache", [.dict (some "redis_data") (some "/data") none]),
                 ("extra", [.str "extra_data:/x"])] }

/-- The parsed form of `exDoc` (checked by `rfl` in the proofs). -/
def exParsed : List VolumeInfo :=
  [{ name := "postgres_data", service := "database", type := "named",
     source := "postgres_data", target := "/var/lib/postgresql/data",
     is_external := false, compose_name := "shop_postgres_data" },
   { name := "./init-scripts", service := "database", type := "bind",
     source := "./init-scripts", target := "/docker-entrypoint-initdb.d",
     is_external := false, compose_name := "./init-scripts" },
   { name := "redis_data", service := "cache", type := "named",
     source := "redis_data", target := "/data",
     is_external := false, compose_name := "shop_redis_data" },
   { name := "extra_data", service := "extra", type := "named",
     source := "extra_data", target := "/x",
     is_external := false, compose_name := "custom_pg" }]

/-- Two deduplicated named volume declarations, as `create_backup` sees
them after parsing the spec's example project. -/
def exVols : List VolumeInfo :=
  [{ name := "postgres_data", service := "database", type := "named",
     source := "postgres_data", target := "/var/lib/postgresql/data",
     is_external := false, compose_name := "shop_postgres_data" },
   { name := "redis_data", service := "cache", type := "named",
     source := "redis_data", target := "/data",
     is_external := false, compose_name := "shop_redis_data" }]

/-- Metadata that the local backup of `exVols` writes. -/
def exMeta1 : MetaJson :=
  buildMetadata "20250101_000000" "docker-compose" "docker-compose.yml"
    (dedupNamed (filterSubset exVols none))

/-- The artifact the local backup of `exVols` produces (compressed). -/
def exArchive1 : Archive :=
  { gz := true,
    members := ["docker-compose_volumes_20250101_000000",
                "docker-compose_volumes_20250101_000000/metadata.json",
                "docker-compose_volumes_20250101_000000/postgres_data.tar.gz",
                "docker-compose_volumes_20250101_000000/redis_data.tar.gz"],
    contents := [("docker-compose_volumes_20250101_000000/metadata.json", .json exMeta1)] }

/-- A structurally well-formed but uncompressed (plain tar) artifact. -/
def wfPlain : Archive :=
  { gz := false, members := ["metadata.json", "volumes/a/f"],
    contents := [("metadata.json", .json { volumes := some [{ name := some "a" }] })] }

/-- Metadata whose single volume `data_a` carries an `archive_path` field
pointing at `data_b`, which has no subtree in the archive. -/
def metaC4 : MetaJson :=
  { volumes := some [{ name := some "data_a", archive_path := some "data_b" }] }

/-- Archive passing validation (it has `volumes/data_a/`) whose metadata
directs the restorer at the absent `volumes/data_b/` subtree. -/
def aC4 : Archive :=
  { gz := true, members := ["metadata.json", "volumes/data_a/file1"],
    contents := [("metadata.json", .json metaC4)] }

/-- Archive storing volume `web-data` under the underscore-normalized
directory `volumes/web_data/`. -/
def aC6 : Archive :=
  { gz := true, members := ["metadata.json", "volumes/web_data/f"],
    contents := [("metadata.json", .json { volumes := some [{ name := some "web-data" }] })] }

/-- Archive containing only `volumes/aaa/`, unrelated to volume `zzz`. -/
def aC6b : Archive :=
  { gz := true, members := ["metadata.json", "volumes/aaa/f"],
    contents := [("metadata.json", .json { volumes := some [{ name := some "aaa" }] })] }

/-- Metadata listing the same volume name `a` twice. -/
def metaC8 : MetaJson :=
  { volumes := some [{ name := some "a" }, { name := some "a" }] }

/-- Valid archive whose metadata lists volume `a` twice. -/
def aC8 : Archive :=
  { gz := true, members := ["metadata.json", "volumes/a/f"],
    contents := [("metadata.json", .json metaC8)] }

/-- Metadata listing the single volume `a` once. -/
def metaC8w : MetaJson := { volumes := some [{ name := some "a" }] }

/-- Valid archive whose metadata lists the single volume `a`. -/
def aC8w : Archive :=
  { gz := true, members := ["metadata.json", "volumes/a/f"],
    contents := [("metadata.json", .json metaC8w)] }

/-- Archive whose metadata references `orders_data` while the archive only
contains `volumes/other/` entries. -/
def aOrders : Archive :=
  { gz := true, members := ["metadata.json", "volumes/other/f"],
    contents := [("metadata.json",
      .json { volumes := some [{ name := some "orders_data" }] })] }

/-! ## Theorems -/

/-- **C9** — `parse` fails with `NotFoundError` for every path that does not
exist, fails with `FormatError` (a propagated YAML parse error) for every
file whose content cannot be parsed as the expected structured-config
format, and returns an empty sequence (rather than failing) for every file
whose parsed document is empty/null. -/
theorem C9_parse_error_handling (path : List String) :
    parse_compose_file path .missing = .error (.fileNotFound path)
    ∧ parse_compose_file path .invalidYaml = .error .yamlError
    ∧ parse_compose_file path (.doc none) = .ok [] :=
  ⟨rfl, rfl, rfl⟩

/-- **C5** — For a volume whose `qualifiedName` already exists in the
runtime, `restore_volume` with `force = false` fails with `ConflictError`
("already exists. Use --force") and performs no runtime action (nothing is
removed, nothing is created); with `force = true` the existing volume is
removed first and the new one created immediately after. -/
theorem C5_conflict_handling (a : Archive) (name : String)
    (apf : Option String) (cp : Int) :
    restore_volume true false a name apf cp
      = { trace := [], extracted := 0, result := .error (.volumeExists name) }
    ∧ (restore_volume true true a name apf cp).trace.take 2
      = [Action.removeVolume name, Action.createVolume name] := by
  refine ⟨rfl, ?_⟩
  cases hb : restoreBody a name (apf.getD name) cp with
  | ok p => obtain ⟨n, acts⟩ := p; simp [restore_volume, hb]
  | error p => obtain ⟨e, n, acts⟩ := p; simp [restore_volume, hb]

/-- **C4** — the claim fails on the code: restoring a volume whose archived
subtree (`volumes/data_b/`, named by the metadata's `archive_path`) is
absent from the archive does *not* fail and does *not* clean up. The
variant-search loop of `restore.py` lines 152-159 breaks after the first
archive member because `volume_prefix` is already a non-empty string, so
the `raise ValueError("Volume directory not found")` of line 187 is
unreachable; the restorer extracts zero members, `docker cp` copies an
empty directory, and an empty volume `data_a` is reported as successfully
restored — the archive involved passes `validate_backup`, so the state is
reachable from `restore_backup`. -/
theorem C4_missing_subtree_leaves_empty_volume :
    validate_backup aC4 = .ok metaC4
    ∧ restore_volume false false aC4 "data_a" (some "data_b") 0
      = { trace := [Action.createVolume "data_a", Action.runContainer,
                    Action.dockerCp, Action.stopContainer, Action.removeContainer],
          extracted := 0, result := .ok () }
    ∧ Action.removeVolume "data_a"
        ∉ (restore_volume false false aC4 "data_a" (some "data_b") 0).trace := by
  refine ⟨by decide, by decide, by decide⟩

/-- **C6** — the claim fails on the code: for volume `web-data`, whose
exact prefix is absent but whose hyphen/underscore-normalized directory
`volumes/web_data/` is present in the archive (and is among the
`possible_prefixes` the code lists), the restorer still extracts nothing
and reports success, because the variant search only ever examines the
first archive member; and for volume `zzz`, absent under any naming
variant, no `RestoreError` naming the volume and listing the archive's
volume directories (here `["aaa"]`) is raised — the restorer reports
success with zero members extracted. -/
theorem C6_variant_resolution_dead :
    (restore_volume false false aC6 "web-data" none 0).result = .ok ()
    ∧ (restore_volume false false aC6 "web-data" none 0).extracted = 0
    ∧ "volumes/web_data/" ∈ possiblePrefixes "web-data"
    ∧ (aC6.members.filter (fun m => pyStartsWith m "volumes/web_data/")).length = 1
    ∧ (restore_volume false false aC6b "zzz" none 0).result = .ok ()
    ∧ (restore_volume false false aC6b "zzz" none 0).extracted = 0
    ∧ volumeDirs aC6b.members = ["aaa"] := by
  refine ⟨by decide, by decide, by decide, by decide, by decide, by decide, by decide⟩

/-- **C8 counterexample** — the claim as stated is false: against the valid
archive `aC8`, whose metadata lists volume `a` twice, the selection
`["a", "b"]` contains the name `b`, absent from `metadata.volumes`, yet
`restore_backup` raises no `SelectionError` and proceeds to create volumes:
the guard compares lengths (`len(volumes_to_restore) != len(volumes)`,
`restore.py` line 240) and the duplicate metadata entry makes the filtered
list as long as the selection. -/
theorem C8_counterexample :
    validate_backup aC8 = .ok metaC8
    ∧ "b" ∉ (metaC8.volumes.getD []).map jname
    ∧ (restore_backup aC8 (some ["a", "b"]) false (fun _ => false) (fun _ => 0)).2
        = .ok ()
    ∧ Action.createVolume "a"
        ∈ (restore_backup aC8 (some ["a", "b"]) false (fun _ => false) (fun _ => 0)).1 := by
  refine ⟨by decide, by decide, by decide, by decide⟩

/-- A member name containing an underscore is not the root metadata file
(neither `metadata.json` nor `./metadata.json` contains one). -/
theorem not_root_of_underscore (m : String) (h : '_' ∈ m.data) :
    isRootMetadata m = false := by
  unfold isRootMetadata
  rcases eq_or_ne m "metadata.json" with h1 | h1
  · subst h1; exact absurd h (by decide)
  · rcases eq_or_ne m "./metadata.json" with h2 | h2
    · subst h2; exact absurd h (by decide)
    · simp [h1, h2]

/-- Appending on the right preserves containing an underscore. -/
theorem underscore_append_left (s u : String) (h : '_' ∈ s.data) :
    '_' ∈ (s ++ u).data := by
  rw [String.data_append]
  exact List.mem_append.mpr (Or.inl h)

/-- Every `{project}_volumes_{timestamp}` name contains an underscore. -/
theorem underscore_mem_backupName (project ts : String) :
    '_' ∈ (backupName project ts).data := by
  unfold backupName
  rw [String.data_append, String.data_append]
  exact List.mem_append.mpr (Or.inl (List.mem_append.mpr (Or.inr (by decide))))

/-- If the archive is gzip and no member is a root `metadata.json`,
validation fails with "Metadata file not found in backup". -/
theorem validate_metadataNotFound (a : Archive) (hgz : a.gz = true)
    (hf : a.members.find? isRootMetadata = none) :
    validate_backup a = .error .metadataNotFound := by
  unfold validate_backup
  rw [hgz, hf]
  simp

/-- **C1** — the claim fails on the code: for every volume list, subset,
compression flag and naming inputs, validating the artifact that the
local-destination `create_backup` produced never succeeds. The local
builder packs everything under a `{project}_volumes_{timestamp}/` directory
(per-volume nested tars plus `{dir}/metadata.json`), while `validate_backup`
looks for `metadata.json` at the archive root, so validation fails with
"Metadata file not found in backup" (or already with "Invalid backup
format" when `compress = false`, since validation always opens `r:gz`).
The repository's own `test_restore_workflow` expects this round-trip to
succeed. -/
theorem C1_roundtrip_fails (volumes : List VolumeInfo)
    (subset : Option (List String)) (compress : Bool)
    (ts project cbase : String) (meta : MetaJson) (a : Archive)
    (h : create_backup_local volumes subset compress ts project cbase = .ok (meta, a)) :
    validate_backup a = .error (if compress then Err.metadataNotFound else Err.invalidFormat) := by
  simp only [create_backup_local] at h
  split at h
  · exact absurd h (by simp)
  · split at h
    · exact absurd h (by simp)
    · rw [Except.ok.injEq, Prod.mk.injEq] at h
      obtain ⟨hm, ha⟩ := h
      subst ha
      cases compress with
      | false => simp [validate_backup]
      | true =>
        show validate_backup _ = .error .metadataNotFound
        refine validate_metadataNotFound _ rfl ?_
        rw [List.find?_eq_none]
        intro x hx
        simp only [List.mem_cons, List.mem_map] at hx
        rcases hx with rfl | rfl | ⟨v, _, rfl⟩
        · simp [not_root_of_underscore _ (underscore_mem_backupName project ts)]
        · simp [not_root_of_underscore _
            (underscore_append_left _ _ (underscore_mem_backupName project ts))]
        · simp [not_root_of_underscore _ (underscore_append_left _ _
            (underscore_append_left _ _
              (underscore_append_left _ _ (underscore_mem_backupName project ts))))]

/-- Witness for C1: building the spec's two example volumes locally with
compression produces `exArchive1`, and validating it fails. -/
theorem C1_roundtrip_fails_witness :
    create_backup_local exVols none true "20250101_000000" "docker-compose" "docker-compose.yml"
      = .ok (exMeta1, exArchive1)
    ∧ validate_backup exArchive1 = .error .metadataNotFound := by
  have h := C1_roundtrip_fails exVols none true "20250101_000000" "docker-compose"
    "docker-compose.yml" exMeta1 exArchive1 (by decide)
  exact ⟨by decide, by simpa using h⟩

/-- **C10** — `validate` accepts only gzip-compressed archives: every
artifact whose stream is not gzip-compressed fails validation with a
format error (the `r:gz` open of `restore.py` line 29 raises
`tarfile.ReadError`, reported as "Invalid backup format"), and the
local-destination `create_backup` with `compress = false` produces exactly
such an artifact. -/
theorem C10_validate_requires_gzip :
    (∀ b : Archive, b.gz = false → validate_backup b = .error .invalidFormat)
    ∧ (∀ (volumes : List VolumeInfo) (subset : Option (List String))
        (ts project cbase : String) (meta : MetaJson) (a : Archive),
        create_backup_local volumes subset false ts project cbase = .ok (meta, a) →
        a.gz = false) := by
  constructor
  · intro b hb
    unfold validate_backup
    rw [hb]
    simp
  · intro volumes subset ts project cbase meta a h
    simp only [create_backup_local] at h
    split at h
    · exact absurd h (by simp)
    · split at h
      · exact absurd h (by simp)
      · rw [Except.ok.injEq, Prod.mk.injEq] at h
        obtain ⟨_, ha⟩ := h
        subst ha
        rfl

/-- Witness for C10: the plain-tar artifact `wfPlain` fails validation even
though the same archive with a gzip stream validates successfully (its
structure and metadata are well-formed). -/
theorem C10_validate_requires_gzip_witness :
    validate_backup wfPlain = .error .invalidFormat
    ∧ validate_backup { wfPlain with gz := true }
        = .ok { volumes := some [{ name := some "a" }] } :=
  ⟨C10_validate_requires_gzip.1 wfPlain rfl, by decide⟩

/-- If every metadata volume entry has a `name` and its
`volumes/<name>/` prefix is present, the per-volume loop succeeds. -/
theorem checkVolumes_ok (members : List String) (vs : List VolJson)
    (hname : ∀ v ∈ vs, (v.name).isSome = true)
    (hall : ∀ v ∈ vs, volumePrefixPresent members (jname v) = true) :
    checkVolumes members vs = .ok () := by
  induction vs with
  | nil => rfl
  | cons v rest ih =>
    obtain ⟨n, hn⟩ := Option.isSome_iff_exists.mp (hname v (by simp))
    have hp := hall v (by simp)
    simp only [jname, hn, Option.getD_some] at hp
    unfold checkVolumes
    rw [hn]
    simp only [hp, if_true]
    exact ih (fun w hw => hname w (by simp [hw])) (fun w hw => hall w (by simp [hw]))

/-- If every metadata volume entry has a `name` but some entry's
`volumes/<name>/` prefix is absent, the per-volume loop fails with
`Volume directory not found` naming such an entry. -/
theorem checkVolumes_err (members : List String) (vs : List VolJson)
    (hname : ∀ v ∈ vs, (v.name).isSome = true)
    (hex : ∃ v ∈ vs, volumePrefixPresent members (jname v) = false) :
    ∃ n, checkVolumes members vs = .error (.volumeDirNotFound n)
      ∧ n ∈ vs.map jname ∧ volumePrefixPresent members n = false := by
  induction vs with
  | nil => obtain ⟨v, hv, _⟩ := hex; exact absurd hv (by simp)
  | cons v rest ih =>
    obtain ⟨n, hn⟩ := Option.isSome_iff_exists.mp (hname v (by simp))
    have hjn : jname v = n := by simp [jname, hn]
    by_cases hp : volumePrefixPresent members n = true
    · have hex' : ∃ w ∈ rest, volumePrefixPresent members (jname w) = false := by
        obtain ⟨w, hw, hwf⟩ := hex
        rcases List.mem_cons.mp hw with rfl | hw'
        · rw [hjn, hp] at hwf; exact absurd hwf (by simp)
        · exact ⟨w, hw', hwf⟩
      obtain ⟨m, hcm, hmm, hmf⟩ := ih (fun w hw => hname w (by simp [hw])) hex'
      refine ⟨m, ?_, ?_, hmf⟩
      · unfold checkVolumes
        rw [hn]
        simp only [hp, if_true]
        exact hcm
      · rw [List.map_cons]
        exact List.mem_cons_of_mem _ hmm
    · refine ⟨n, ?_, ?_, by simpa using hp⟩
      · unfold checkVolumes
        rw [hn]
        simp [hp]
      · rw [List.map_cons, hjn]
        exact List.mem_cons_self _ _

/-- **C3** — `validate` performs its structural checks in order, each
failure raising the specific error: (1) no root `metadata.json` member
(leading `./` accepted) fails with "Metadata file not found"; (2) with the
metadata readable but its `volumes` field absent, "missing volumes
section"; (3) with a `volumes` field but no member under a top-level
`volumes/` directory, "No volume files found"; (4) with such members
present, the validation succeeds iff every metadata volume entry has some
member under its `volumes/<qualifiedName>/` prefix, and an archive whose
metadata references a volume with no matching entries fails with an error
naming that volume. -/
theorem C3_validate_check_order (a : Archive) (mname : String) (meta : MetaJson)
    (vs : List VolJson) (hgz : a.gz = true) :
    (a.members.find? isRootMetadata = none →
      validate_backup a = .error .metadataNotFound)
    ∧ (a.members.find? isRootMetadata = some mname →
       a.contents.lookup mname = some (.json meta) →
       (meta.volumes = none → validate_backup a = .error .missingVolumesSection)
       ∧ (meta.volumes = some vs →
          (hasVolumeFiles a.members = false → validate_backup a = .error .noVolumeFiles)
          ∧ (hasVolumeFiles a.members = true →
             ((∀ v ∈ vs, (v.name).isSome = true) →
              (∀ v ∈ vs, volumePrefixPresent a.members (jname v) = true) →
                validate_backup a = .ok meta)
             ∧ ((∀ v ∈ vs, (v.name).isSome = true) →
                (∃ v ∈ vs, volumePrefixPresent a.members (jname v) = false) →
                ∃ n, validate_backup a = .error (.volumeDirNotFound n)
                  ∧ n ∈ vs.map jname
                  ∧ volumePrefixPresent a.members n = false)))) := by
  refine ⟨fun hf => validate_metadataNotFound a hgz hf, fun hf hl => ?_⟩
  refine ⟨fun hn => ?_, fun hvs => ⟨fun hnf => ?_, fun hyes => ⟨fun hname hall => ?_, fun hname hex => ?_⟩⟩⟩
  · simp [validate_backup, hgz, hf, hl, hn]
  · simp [validate_backup, hgz, hf, hl, hvs, hnf]
  · simp [validate_backup, hgz, hf, hl, hvs, hyes, Except.map,
      checkVolumes_ok a.members vs hname hall]
  · obtain ⟨n, hc, hmem, hfp⟩ := checkVolumes_err a.members vs hname hex
    exact ⟨n, by simp [validate_backup, hgz, hf, hl, hvs, hyes, hc, Except.map], hmem, hfp⟩

/-- Witness for C3: the spec's example — an archive whose metadata
references `orders_data` but which contains no `volumes/orders_data/`
entries — fails with an error naming `orders_data`. -/
theorem C3_validate_check_order_witness :
    validate_backup aOrders = .error (.volumeDirNotFound "orders_data") := by
  obtain ⟨n, hn, hmem, _⟩ :=
    ((((C3_validate_check_order aOrders "metadata.json"
        { volumes := some [{ name := some "orders_data" }] }
        [{ name := some "orders_data" }] (by decide)).2
      (by decide) (by decide)).2 rfl).2 (by decide)).2 (by decide) (by decide)
  have : n = "orders_data" := by simpa [jname] using hmem
  subst this
  exact hn

/-- **C7** — `create_backup` fails with `NoVolumesError` (one of the two
`BackupError` raise sites) whenever the set left after subset filtering,
Named-only filtering and dedup-by-logicalName is empty; on success, the
metadata's `volumes` sequence is built exactly from the first-seen
declaration per logical name; and the spec's scenario — restricting a
two-named-volume project to `["postgres_data"]` — yields a metadata
`volumes` sequence of length 1. -/
theorem C7_filtering_and_dedup (volumes : List VolumeInfo)
    (subset : Option (List String)) (compress : Bool) (ts project cbase : String) :
    (dedupNamed (filterSubset volumes subset) = [] →
      create_backup_local volumes subset compress ts project cbase = .error .noVolumesToBackup
      ∨ create_backup_local volumes subset compress ts project cbase = .error .noNamedVolumes)
    ∧ (∀ (meta : MetaJson) (a : Archive),
        create_backup_local volumes subset compress ts project cbase = .ok (meta, a) →
        meta.volumes = some ((dedupNamed (filterSubset volumes subset)).map fun v =>
          { name := some v.compose_name, service := some v.service,
            target := some v.target, is_external := some v.is_external }))
    ∧ (create_backup_local exVols (some ["postgres_data"]) true "t" "p" "c").map
        (fun p => (p.1.volumes.getD []).length) = .ok 1 := by
  refine ⟨?_, ?_, by decide⟩
  · intro hd
    simp only [create_backup_local]
    split
    · exact Or.inl rfl
    · exact Or.inr rfl
  · intro meta a h
    simp only [create_backup_local] at h
    split at h
    · exact absurd h (by simp)
    · split at h
      · exact absurd h (by simp)
      · rw [Except.ok.injEq, Prod.mk.injEq] at h
        obtain ⟨hm, _⟩ := h
        rw [← hm]
        rfl

/-- Witness for C7: an empty volume list is rejected. -/
theorem C7_filtering_and_dedup_witness :
    create_backup_local [] none true "t" "p" "c" = .error .noVolumesToBackup := by
  rcases (C7_filtering_and_dedup [] none true "t" "p" "c").1 rfl with h | h
  · exact h
  · exact absurd h (by decide)

/-- The names of the metadata entries selected by a name list are the
metadata names that lie in that list. -/
theorem filter_names (vs : List VolJson) (sel : List String) :
    (vs.filter (fun v => jname v ∈ sel)).map jname
      = (vs.map jname).filter (fun x => x ∈ sel) := by
  induction vs with
  | nil => rfl
  | cons v rest ih => by_cases h : jname v ∈ sel <;> simp [h, ih]

/-- With pairwise-distinct metadata names, a selection containing a name
absent from the metadata always selects strictly fewer entries than its
own length. -/
theorem selection_filter_short (vs : List VolJson) (sel : List String) (b : String)
    (hnd : (vs.map jname).Nodup) (hb : b ∈ sel) (habs : b ∉ vs.map jname) :
    (vs.filter (fun v => jname v ∈ sel)).length < sel.length := by
  have h1 : (vs.filter (fun v => jname v ∈ sel)).length
      = ((vs.map jname).filter (fun x => x ∈ sel)).length := by
    rw [← filter_names, List.length_map]
  rw [h1]
  have hnd2 : ((vs.map jname).filter (fun x => x ∈ sel)).Nodup := hnd.filter _
  have hsub : ((vs.map jname).filter (fun x => x ∈ sel)).toFinset
      ⊆ sel.toFinset.erase b := by
    intro x hx
    rw [List.mem_toFinset, List.mem_filter] at hx
    obtain ⟨hxn, hxs⟩ := hx
    rw [Finset.mem_erase]
    refine ⟨?_, List.mem_toFinset.mpr (by simpa using hxs)⟩
    rintro rfl
    exact habs hxn
  calc ((vs.map jname).filter (fun x => x ∈ sel)).length
      = ((vs.map jname).filter (fun x => x ∈ sel)).toFinset.card :=
        (List.toFinset_card_of_nodup hnd2).symm
    _ ≤ (sel.toFinset.erase b).card := Finset.card_le_card hsub
    _ < sel.toFinset.card := Finset.card_erase_lt_of_mem (List.mem_toFinset.mpr hb)
    _ ≤ sel.length := sel.toFinset_card_le

/-- **C8 amended** — provided the archive metadata's volume names are
pairwise distinct (which `validate_backup` does not enforce — see the
counterexample), a selection containing any name absent from
`metadata.volumes` makes `restore_backup` fail with the selection error
listing exactly the absent names, before any volume is removed, created or
populated (empty action trace). -/
theorem C8_selection_guard (a : Archive) (meta : MetaJson) (vs : List VolJson)
    (sel : List String) (b : String) (force : Bool)
    (volExists : String → Bool) (cp : String → Int)
    (hval : validate_backup a = .ok meta) (hvs : meta.volumes = some vs)
    (hnd : (vs.map jname).Nodup) (hb : b ∈ sel) (habs : b ∉ vs.map jname) :
    ∃ missing, restore_backup a (some sel) force volExists cp
        = ([], .error (.volumesNotFoundInBackup missing))
      ∧ b ∈ missing
      ∧ (∀ x, x ∈ missing ↔ x ∈ sel ∧ x ∉ vs.map jname) := by
  obtain ⟨s, ss, rfl⟩ : ∃ s ss, sel = s :: ss := by
    cases sel with
    | nil => exact absurd hb (by simp)
    | cons s ss => exact ⟨s, ss, rfl⟩
  have hlt := selection_filter_short vs (s :: ss) b hnd hb habs
  have hsel : restore_selection vs (some (s :: ss))
      = .error (.volumesNotFoundInBackup
          (((s :: ss).filter fun x =>
            x ∉ (vs.filter (fun v => jname v ∈ s :: ss)).map jname).dedup)) := by
    unfold restore_selection
    dsimp only
    rw [if_pos (Nat.ne_of_lt hlt)]
  have hiff : ∀ x, x ∈ ((s :: ss).filter fun x =>
        x ∉ (vs.filter (fun v => jname v ∈ s :: ss)).map jname).dedup
      ↔ x ∈ s :: ss ∧ x ∉ vs.map jname := by
    intro x
    rw [List.mem_dedup, List.mem_filter]
    simp only [decide_not, Bool.not_eq_true', decide_eq_false_iff_not]
    rw [filter_names]
    refine and_congr_right fun hx1 => ?_
    rw [List.mem_filter]
    simp [hx1]
  refine ⟨_, ?_, (hiff b).mpr ⟨hb, habs⟩, hiff⟩
  simp [restore_backup, hval, hvs, hsel]

/-- Witness for C8 (amended): against `aC8w` (single metadata volume `a`),
selecting `["a", "x"]` fails before any runtime action. -/
theorem C8_selection_guard_witness :
    (restore_backup aC8w (some ["a", "x"]) false (fun _ => false) (fun _ => 0)).1 = []
    ∧ (restore_backup aC8w (some ["a", "x"]) false (fun _ => false) (fun _ => 0)).2
        ≠ .ok () := by
  obtain ⟨m, h1, hbm, _⟩ := C8_selection_guard aC8w metaC8w [{ name := some "a" }]
    ["a", "x"] "x" false (fun _ => false) (fun _ => 0) (by decide) rfl (by decide)
    (by decide) (by decide)
  rw [h1]
  exact ⟨rfl, by simp⟩

/-- Every `VolumeInfo` produced from one service mount is either a named
volume whose `compose_name` is the explicit `name:` of its top-level entry
when present and `{project}_{logicalName}` otherwise, or a bind mount whose
`compose_name` is its source path. -/
theorem processMount_spec (nv : List (String × Option VolumeConfig))
    (pn sn : String) (m : ServiceMount) (v : VolumeInfo)
    (h : processMount nv pn sn m = some v) :
    (v.type = "named"
      ∧ v.compose_name = (volCfg nv v.name).name.getD (pn ++ "_" ++ v.name))
    ∨ (v.type = "bind" ∧ v.compose_name = v.source) := by
  cases m with
  | str s =>
    simp only [processMount] at h
    split at h
    · split at h
      · rw [Option.some.injEq] at h
        subst h
        exact Or.inl ⟨rfl, rfl⟩
      · rw [Option.some.injEq] at h
        subst h
        exact Or.inr ⟨rfl, rfl⟩
    · exact absurd h (by simp)
  | dict src tgt ty =>
    simp only [processMount] at h
    split_ifs at h with h1 h2
    · rw [Option.some.injEq] at h
      subst h
      exact Or.inl ⟨rfl, rfl⟩
    · rw [Option.some.injEq] at h
      subst h
      exact Or.inr ⟨rfl, rfl⟩

/-- **C2** — qualifiedName resolution of the compose extractor: for every
volume mount parsed out of a compose document, a Named mount whose
top-level `volumes:` entry is null/absent or lacks an explicit `name:`
field gets `compose_name = "{projectName}_{logicalName}"` where
`projectName` is the base name of the compose file's parent directory; a
Named mount whose entry carries an explicit `name:` gets that value
verbatim; a Bind mount's `compose_name` is its literal source path. -/
theorem C2_qualified_name_resolution (path : List String) (d : ComposeDoc)
    (vs : List VolumeInfo) (v : VolumeInfo)
    (h : parse_compose_file path (.doc (some d)) = .ok vs) (hv : v ∈ vs) :
    (v.type = "named" →
      ((volCfg d.volumes v.name).name = none →
        v.compose_name = get_project_name path ++ "_" ++ v.name)
      ∧ (∀ n, (volCfg d.volumes v.name).name = some n → v.compose_name = n))
    ∧ (v.type = "bind" → v.compose_name = v.source) := by
  rw [parse_compose_file, Except.ok.injEq] at h
  subst h
  rw [List.mem_flatMap] at hv
  obtain ⟨sv, _, hv2⟩ := hv
  rw [List.mem_filterMap] at hv2
  obtain ⟨m, _, hm⟩ := hv2
  rcases processMount_spec d.volumes (get_project_name path) sv.1 m v hm with
    ⟨ht, hc⟩ | ⟨ht, hc⟩
  · refine ⟨fun _ => ⟨fun hn => ?_, fun n hn => ?_⟩, fun hb => ?_⟩
    · rw [hc, hn]; rfl
    · rw [hc, hn]; rfl
    · rw [ht] at hb; exact absurd hb (by decide)
  · refine ⟨fun hn => ?_, fun _ => hc⟩
    rw [ht] at hn
    exact absurd hn (by decide)

/-- Witness for C2, the spec's example scenario: project directory `shop`,
`postgres_data` (empty configuration) resolves to `shop_postgres_data`,
`redis_data` (null entry, long syntax) to `shop_redis_data`, and
`extra_data` with explicit `name: custom_pg` to `custom_pg` verbatim. -/
theorem C2_qualified_name_resolution_witness :
    (exParsed.get ⟨0, by decide⟩).compose_name = "shop_postgres_data"
    ∧ (exParsed.get ⟨2, by decide⟩).compose_name = "shop_redis_data"
    ∧ (exParsed.get ⟨3, by decide⟩).compose_name = "custom_pg" := by
  have hparse : parse_compose_file exPath (.doc (some exDoc)) = .ok exParsed := by decide
  have h0 := C2_qualified_name_resolution exPath exDoc exParsed _ hparse
    (List.get_mem exParsed 0 (by decide))
  have h2 := C2_qualified_name_resolution exPath exDoc exParsed _ hparse
    (List.get_mem exParsed 2 (by decide))
  have h3 := C2_qualified_name_resolution exPath exDoc exParsed _ hparse
    (List.get_mem exParsed 3 (by decide))
  refine ⟨?_, ?_, ?_⟩
  · exact ((h0.1 (by decide)).1 (by decide)).trans (by decide)
  · exact ((h2.1 (by decide)).1 (by decide)).trans (by decide)
  · exact (h3.1 (by decide)).2 "custom_pg" (by decide)

end DVT
